import Mathlib

/-!
Verification development for `clean_all_lines.py`, a batch driver that runs
CASA `tclean`/`imstat`/`exportfits` plus a Keplerian-mask routine over a fixed
catalog of spectral lines.  The script's own logic — path assembly, threshold
computation, call sequencing, failure swallowing — is embedded shallowly:
pure string/number functions mirror the Python expressions, and the side
effects are modelled as a trace of external-engine calls produced by
`cleanLineRun`, with an environment (`LineEnv`) supplying the outcome of each
external call.  Numeric values are modelled as exact rationals; `round(x, 1)`
is modelled as round-half-to-even on tenths, Python's documented rounding
rule.  The GHz rest-frequency argument of a `tclean` call is recorded as the
rational value rather than its decimal rendering.
-/

namespace CleanAllLines

/-- Model of `os.path.join a b` for the relative, non-empty second components
used throughout the script. -/
def pathJoin (a b : String) : String := a ++ "/" ++ b

/-- Characters strictly after the last slash of a path, as a list. -/
def basenameList : List Char → List Char
  | [] => []
  | c :: rest => if c = '/' ∨ rest.contains '/' then basenameList rest else c :: rest

/-- Model of `os.path.basename`: the component after the last slash. -/
def basename (p : String) : String := String.mk (basenameList p.data)

/-- Model of Python `s.replace('_', '')`: drop every underscore character. -/
def removeUnderscores (s : String) : String :=
  String.mk (s.data.filter (fun c => c ≠ '_'))

/-- Replace each occurrence of the five-character field `\x7bspw\x7d` by the
given character list. -/
def fillSpwList (spw : List Char) : List Char → List Char
  | '\x7b' :: 's' :: 'p' :: 'w' :: '\x7d' :: rest => spw ++ fillSpwList spw rest
  | c :: rest => c :: fillSpwList spw rest
  | [] => []

/-- Model of Python `template.format(spw=n)` for templates whose only field is
`\x7bspw\x7d`: splice the decimal rendering of `n` at each occurrence. -/
def fillSpw (t : String) (spw : Nat) : String :=
  String.mk (fillSpwList (toString spw).data t.data)

/-- Rational multiplication written through `mkRat` so that it evaluates by
kernel reduction (the library's `Rat.mul` is irreducible).  `ratMul_eq_mul`
below certifies that it is exactly multiplication on `ℚ`. -/
def ratMul (a b : ℚ) : ℚ := mkRat (a.num * b.num) (a.den * b.den)

/-- Round-half-to-even of a rational to an integer, Python's rounding rule for
`round` on exact values. -/
def roundHalfEven (y : ℚ) : ℤ :=
  let n := y.num.fdiv y.den
  let r := y.num.fmod y.den
  if 2 * r < (y.den : ℤ) then n
  else if (y.den : ℤ) < 2 * r then n + 1
  else if n % 2 = 0 then n else n + 1

/-- Model of Python `round(x, 1)`, returned as an integer count of tenths. -/
def pyRound1 (x : ℚ) : ℤ := roundHalfEven (ratMul 10 x)

/-- Decimal rendering of a count of tenths with one fractional digit, the form
Python's float repr takes on the results of `round(x, 1)` in this script's
value range (e.g. `60` tenths renders as `"6.0"`). -/
def reprTenths (t : ℤ) : String :=
  (if t < 0 then "-" else "") ++ toString (t.natAbs / 10) ++ "." ++ toString (t.natAbs % 10)

-- ==========================================================================
--  Data model: configuration tables (lines 56-169 of the script)
-- ==========================================================================

/-- One entry of a dataset's `lines` table. -/
structure LineCfg where
  spw : Nat
  molecule : String
  line_freq : ℚ
  restfreqs : List ℚ
deriving DecidableEq, Repr

/-- One entry of the `DATASETS` table. -/
structure DatasetCfg where
  name : String
  vis_template : String
  width : String
  lines : List LineCfg
deriving DecidableEq, Repr

/-- The `MASK_PARAMS` dictionary: Keplerian mask generation parameters. -/
structure MaskParams where
  inc : ℚ
  PA : ℚ
  mstar : ℚ
  dist : ℚ
  vlsr : ℚ
  dx0 : ℚ
  dy0 : ℚ
  nbeams : ℚ
  dV0 : ℚ
  dVq : ℚ
deriving DecidableEq, Repr

/-- The `TCLEAN_COMMON_PARAMS` dictionary: shared tclean configuration. -/
structure TcleanParams where
  deconvolver : String
  scales : List Nat
  specmode : String
  start : String
  nchan : Nat
  outframe : String
  interactive : Bool
  imsize : List Nat
  cell : String
  weighting : String
  robust : ℚ
  uvtaper : List String
  restoringbeam : String
deriving DecidableEq, Repr

/-- The module-level configuration globals of the script. -/
structure Globals where
  MASK_PARAMS : MaskParams
  TCLEAN_COMMON_PARAMS : TcleanParams
  RMS_CHANNELS : String
  RMS_MULTIPLIER : ℚ
  MAX_ITERATIONS : Nat
  DATASETS : List DatasetCfg
deriving DecidableEq, Repr

/-- Line `N2H+` of dataset `2013_SG2`. -/
def lineN2H : LineCfg :=
  { spw := 0, molecule := "N2H+", line_freq := 279.5117491, restfreqs := [279.5117491] }

/-- Line `HCN` of dataset `2013_SG1`, a blended line with six rest
frequencies. -/
def lineHCN : LineCfg :=
  { spw := 0, molecule := "HCN", line_freq := 265.8864343
    restfreqs := [265.8848912, 265.8861886, 265.8864339, 265.8864343, 265.8864999, 265.8885221] }

/-- The `2013_SG2` entry of `DATASETS`. -/
def dataset2013SG2 : DatasetCfg where
  name := "2013_SG2"
  vis_template := "AA_Tau_2013_SG2.spw{spw}.selfcal.ms.contsub_fit1"
  width := "0.3km/s"
  lines :=
    [ lineN2H
    , { spw := 2, molecule := "DCO+", line_freq := 288.1438583, restfreqs := [288.1438583] }
    , { spw := 6, molecule := "H2CO", line_freq := 290.623405, restfreqs := [290.623405] } ]

/-- The `2013_SG1` entry of `DATASETS`. -/
def dataset2013SG1 : DatasetCfg where
  name := "2013_SG1"
  vis_template := "AA_Tau_2013_SG1.spw{spw}.selfcal.ms.contsub_fit1"
  width := "0.2km/s"
  lines :=
    [ lineHCN
    , { spw := 1, molecule := "HCO+", line_freq := 267.5576259, restfreqs := [267.5576259] } ]

/-- The `2015_SG1` entry of `DATASETS` (irregular directory naming). -/
def dataset2015SG1 : DatasetCfg where
  name := "2015_SG1"
  vis_template := "AA_Tau_2015_SG1.spw{spw}.selfcal.ms.contsub_fit1"
  width := "0.2km/s"
  lines :=
    [ { spw := 1, molecule := "CN_SPW1", line_freq := 340.24777
        restfreqs := [340.24777, 340.248544, 340.2617734, 340.264949, 340.2791201] }
    , { spw := 3, molecule := "CN_SPW3", line_freq := 340.0315494
        restfreqs := [340.0081263, 340.0196255, 340.0315494, 340.035408] }
    , { spw := 5, molecule := "C18O", line_freq := 329.3305525, restfreqs := [329.3305525] }
    , { spw := 6, molecule := "13CO", line_freq := 330.5879653, restfreqs := [330.5879653] } ]

/-- The values the script assigns to its configuration globals. -/
def defaultGlobals : Globals where
  MASK_PARAMS :=
    { inc := 59.1
      PA := 93.0 + 180
      mstar := 0.62
      dist := 145.0
      vlsr := 6.445e3
      dx0 := 0.0065
      dy0 := -0.2573
      nbeams := 2.0
      dV0 := 500
      dVq := -0.5 }
  TCLEAN_COMMON_PARAMS :=
    { deconvolver := "multiscale"
      scales := [0, 5, 10, 20]
      specmode := "cube"
      start := "-3.0km/s"
      nchan := 100
      outframe := "LSRK"
      interactive := false
      imsize := [500, 500]
      cell := "0.03arcsec"
      weighting := "briggs"
      robust := 0.5
      uvtaper := ["0.05arcsec", "0.1483arcsec", "26deg"]
      restoringbeam := "common" }
  RMS_CHANNELS := "0~30"
  RMS_MULTIPLIER := 2    -- written `2.0` in the script
  MAX_ITERATIONS := 50000
  DATASETS := [dataset2013SG2, dataset2013SG1, dataset2015SG1]

-- ==========================================================================
--  External-call trace model
-- ==========================================================================

/-- Arguments of one `tclean(...)` invocation.  `restfreq` records the GHz
value interpolated into the `"...GHz"` argument string; `common` records the
splatted `**TCLEAN_COMMON_PARAMS`. -/
structure TcleanCall where
  vis : String
  imagename : String
  width : String
  restfreq : ℚ
  threshold : String
  niter : Nat
  mask : Option String
  common : TcleanParams
deriving DecidableEq, Repr

/-- Arguments of the `make_mask(...)` invocation; `restfreqs` is in Hz and
`params` records the splatted `**MASK_PARAMS`. -/
structure MakeMaskCall where
  image : String
  restfreqs : List ℚ
  params : MaskParams
deriving DecidableEq, Repr

/-- Arguments of the `imstat(...)` invocation. -/
structure ImstatCall where
  imagename : String
  chans : String
deriving DecidableEq, Repr

/-- Arguments of one `exportfits(...)` invocation. -/
structure ExportfitsCall where
  imagename : String
  fitsimage : String
  overwrite : Bool
  dropstokes : Bool
deriving DecidableEq, Repr

/-- One external call made by `clean_line`, in program order. -/
inductive Call where
  | tcleanC (c : TcleanCall)
  | makeMaskC (c : MakeMaskCall)
  | imstatC (c : ImstatCall)
  | exportfitsC (c : ExportfitsCall)
deriving DecidableEq, Repr

/-- The dictionary returned by `imstat`: keys mapped to numeric arrays. -/
structure Stats where
  entries : List (String × List ℚ)
deriving DecidableEq, Repr

/-- Python `stats['k']` key lookup (`'k' in stats` is `isSome`). -/
def statsLookup (s : Stats) (k : String) : Option (List ℚ) :=
  (s.entries.find? (fun e => e.1 == k)).map Prod.snd

/-- Environment for one `clean_line` invocation: whether each external call
succeeds or raises, and the dictionary `imstat` returns when it succeeds. -/
structure LineEnv where
  tclean0_ok : Bool
  make_mask_ok : Bool
  imstat_ok : Bool
  stats : Stats
  tclean1_ok : Bool
  export_image_ok : Bool
  export_mask_ok : Bool
deriving DecidableEq, Repr

/-- Outcome of one `clean_line` invocation: the trace of external calls it
made, and the exception it raised, if any. -/
structure RunResult where
  calls : List Call
  error : Option String
deriving DecidableEq, Repr

-- ==========================================================================
--  clean_line (lines 175-263 of the script)
-- ==========================================================================

/-- Lines 188-194: `contsub_dir`, with the special case for `2015_SG1`. -/
def contsub_dirOf (name : String) : String :=
  if name = "2015_SG1" then "contsub_2015"
  else "contsub_" ++ removeUnderscores name

/-- Lines 196-197: `vis_file`. -/
def vis_fileOf (base_path : String) (d : DatasetCfg) (l : LineCfg) : String :=
  pathJoin (pathJoin base_path (contsub_dirOf d.name)) (fillSpw d.vis_template l.spw)

/-- Line 200: `output_prefix`. -/
def outPrefixOf (output_path molecule : String) : String :=
  pathJoin output_path ("AATau_" ++ molecule ++ "_contsub")

/-- Line 201: `clean0_imagename`. -/
def clean0_imagenameOf (output_path molecule : String) : String :=
  outPrefixOf output_path molecule ++ "_clean0"

/-- Line 202: `clean0_image`. -/
def clean0_imageOf (output_path molecule : String) : String :=
  clean0_imagenameOf output_path molecule ++ ".image"

/-- Line 203: `clean1_imagename`. -/
def clean1_imagenameOf (output_path molecule : String) : String :=
  outPrefixOf output_path molecule ++ "_clean1"

/-- Line 204: `clean1_image`. -/
def clean1_imageOf (output_path molecule : String) : String :=
  clean1_imagenameOf output_path molecule ++ ".image"

/-- Line 205: `mask_image`. -/
def mask_imageOf (output_path molecule : String) : String :=
  clean0_imagenameOf output_path molecule ++ ".mask.image"

/-- Line 253: `fits_dir`. -/
def fits_dirOf (base_path : String) : String :=
  pathJoin (pathJoin base_path "aatau-alma-analysis") "fits_products"

/-- Line 258: `fits_image_name`. -/
def fits_image_nameOf (base_path output_path molecule : String) : String :=
  pathJoin (fits_dirOf base_path) (basename (clean1_imagenameOf output_path molecule) ++ ".fits")

/-- Line 262: `fits_mask_name`. -/
def fits_mask_nameOf (base_path output_path molecule : String) : String :=
  pathJoin (fits_dirOf base_path) (basename (clean0_imagenameOf output_path molecule) ++ ".mask.fits")

/-- Lines 229-236: evaluate
`stats and 'rms' in stats and stats['rms'][0] > 0`, and on the true branch
build `f'{round(1000. * RMS_MULTIPLIER * stats["rms"][0], 1)}mJy'`, otherwise
`'10mJy'`.  Indexing an empty `rms` array raises, modelled as `.error`. -/
def thresholdFromStats (mult : ℚ) (stats : Stats) : Except String String :=
  if stats.entries.isEmpty then .ok "10mJy"    -- `stats` falsy
  else
    match statsLookup stats "rms" with
    | none => .ok "10mJy"                      -- `'rms' in stats` false
    | some arr =>
      match arr.head? with
      | none => .error "IndexError: index 0 is out of bounds"
      | some v =>
        if 0 < v then
          .ok (reprTenths (pyRound1 (ratMul (ratMul 1000 mult) v)) ++ "mJy")
        else .ok "10mJy"

/-- The body of `clean_line` (lines 175-263): the sequence of external calls
it performs, cut short at the first call the environment makes raise, or at
the `IndexError` of the threshold guard.  Globals are read from `g`. -/
def cleanLineRun (g : Globals) (base_path output_path : String)
    (dataset_config : DatasetCfg) (line_config : LineCfg) (env : LineEnv) : RunResult :=
  let vis_file := vis_fileOf base_path dataset_config line_config
  let clean0_imagename := clean0_imagenameOf output_path line_config.molecule
  let clean0_image := clean0_imageOf output_path line_config.molecule
  let clean1_imagename := clean1_imagenameOf output_path line_config.molecule
  let clean1_image := clean1_imageOf output_path line_config.molecule
  let mask_image := mask_imageOf output_path line_config.molecule
  -- Step 1: initial dirty clean (niter=0), lines 209-217
  let c0 : Call := .tcleanC
    { vis := vis_file, imagename := clean0_imagename, width := dataset_config.width
      restfreq := line_config.line_freq, threshold := "5mJy", niter := 0
      mask := none, common := g.TCLEAN_COMMON_PARAMS }
  if !env.tclean0_ok then { calls := [c0], error := some "tclean raised" } else
  -- Step 2: Keplerian mask, lines 221-225
  let cm : Call := .makeMaskC
    { image := clean0_image
      restfreqs := line_config.restfreqs.map (fun freq => ratMul freq 1000000000)
      params := g.MASK_PARAMS }
  if !env.make_mask_ok then { calls := [c0, cm], error := some "make_mask raised" } else
  -- Step 3: RMS threshold, lines 229-236
  let ci : Call := .imstatC { imagename := clean0_image, chans := g.RMS_CHANNELS }
  if !env.imstat_ok then { calls := [c0, cm, ci], error := some "imstat raised" } else
  match thresholdFromStats g.RMS_MULTIPLIER env.stats with
  | .error e => { calls := [c0, cm, ci], error := some e }
  | .ok threshold_str =>
    -- Step 4: final clean with mask, lines 240-249
    let c1 : Call := .tcleanC
      { vis := vis_file, imagename := clean1_imagename, width := dataset_config.width
        restfreq := line_config.line_freq, threshold := threshold_str
        niter := g.MAX_ITERATIONS, mask := some mask_image, common := g.TCLEAN_COMMON_PARAMS }
    if !env.tclean1_ok then { calls := [c0, cm, ci, c1], error := some "tclean raised" } else
    -- Step 5: export to FITS, lines 253-263
    let ce1 : Call := .exportfitsC
      { imagename := clean1_image
        fitsimage := fits_image_nameOf base_path output_path line_config.molecule
        overwrite := true, dropstokes := true }
    if !env.export_image_ok then
      { calls := [c0, cm, ci, c1, ce1], error := some "exportfits raised" } else
    let ce2 : Call := .exportfitsC
      { imagename := mask_image
        fitsimage := fits_mask_nameOf base_path output_path line_config.molecule
        overwrite := true, dropstokes := true }
    if !env.export_mask_ok then
      { calls := [c0, cm, ci, c1, ce1, ce2], error := some "exportfits raised" } else
    { calls := [c0, cm, ci, c1, ce1, ce2], error := none }

-- ==========================================================================
--  Trace projections
-- ==========================================================================

/-- The tclean invocations of a run, in order. -/
def tcleanCallsOf (r : RunResult) : List TcleanCall :=
  r.calls.filterMap (fun c => match c with | .tcleanC t => some t | _ => none)

/-- The `vis` argument of the first call of a run, when it is a tclean call. -/
def firstVis (r : RunResult) : Option String :=
  match r.calls with
  | .tcleanC t :: _ => some t.vis
  | _ => none

/-- The threshold handed to the second tclean invocation, if one was made. -/
def finalThreshold (r : RunResult) : Option String :=
  ((tcleanCallsOf r).get? 1).map TcleanCall.threshold

/-- The `fitsimage` targets of the exportfits invocations of a run, in order. -/
def exportTargets (r : RunResult) : List String :=
  r.calls.filterMap (fun c => match c with | .exportfitsC e => some e.fitsimage | _ => none)

/-- The `imagename` arguments of the exportfits invocations, in order. -/
def exportSources (r : RunResult) : List String :=
  r.calls.filterMap (fun c => match c with | .exportfitsC e => some e.imagename | _ => none)

/-- The `overwrite` flags of the exportfits invocations, in order. -/
def exportOverwrites (r : RunResult) : List Bool :=
  r.calls.filterMap (fun c => match c with | .exportfitsC e => some e.overwrite | _ => none)

/-- The second element of a run's call list (the `make_mask` position). -/
def secondCall (r : RunResult) : Option Call := r.calls.get? 1

-- ==========================================================================
--  main (lines 266-292 of the script)
-- ==========================================================================

/-- Line 270: `base_path`. -/
def main_base_path : String := "/Users/jea/AATau"

/-- Line 271: `output_path`. -/
def main_output_path : String :=
  pathJoin (pathJoin main_base_path "aatau-alma-analysis") "casa_images"

/-- The flattened iteration order of main's nested loops
`for dataset in DATASETS: for line in dataset['lines']`. -/
def allLines (g : Globals) : List (DatasetCfg × LineCfg) :=
  g.DATASETS.flatMap (fun d => d.lines.map (fun l => (d, l)))

/-- The loop of lines 278-284.  Each iteration runs `clean_line` under
`try: ... except Exception: continue`, so both outcomes of the body fall
through to the next iteration.  The loop state threads the configuration
globals (nothing in the body rebinds them) and returns the list of positions
at which `clean_line` was invoked, in order. -/
def mainLoop (env : Nat → LineEnv) : Globals → Nat → List (DatasetCfg × LineCfg) →
    Except String (List Nat) × Globals
  | g, _, [] => (.ok [], g)
  | g, i, (d, l) :: rest =>
    let r := cleanLineRun g main_base_path main_output_path d l (env i)
    let cont := mainLoop env g (i + 1) rest
    match r.error with
    | some _ => ((cont.1).map (fun t => i :: t), cont.2)  -- except Exception: continue
    | none => ((cont.1).map (fun t => i :: t), cont.2)

/-- `main()`: iterate all datasets and lines, swallowing per-line failures.
The `Nat → LineEnv` argument supplies the external-call outcomes of the run
at each position. -/
def mainRun (g : Globals) (env : Nat → LineEnv) : Except String (List Nat) × Globals :=
  mainLoop env g 0 (allLines g)

-- ==========================================================================
--  Sample environments for concrete runs
-- ==========================================================================

/-- An `imstat` dictionary with a single positive RMS value `0.003`. -/
def okStats : Stats := ⟨[("rms", [mkRat 3 1000])]⟩

/-- An `imstat` dictionary whose RMS value is exactly zero. -/
def zeroStats : Stats := ⟨[("rms", [0])]⟩

/-- A truthy `imstat` dictionary whose `rms` entry is an empty array. -/
def emptyRmsStats : Stats := ⟨[("rms", [])]⟩

/-- An environment in which every external call succeeds and `imstat` reports
RMS `0.003`. -/
def allOkEnv : LineEnv :=
  { tclean0_ok := true, make_mask_ok := true, imstat_ok := true, stats := okStats
    tclean1_ok := true, export_image_ok := true, export_mask_ok := true }

/-- An environment in which every external call succeeds and `imstat` reports
RMS exactly `0`. -/
def zeroRmsEnv : LineEnv := { allOkEnv with stats := zeroStats }

/-- An environment in which every external call succeeds but the `rms` array
that `imstat` returns is empty. -/
def emptyRmsEnv : LineEnv := { allOkEnv with stats := emptyRmsStats }

/-- All external calls of a line succeed and the threshold guard evaluates
without raising. -/
def envAllOk (g : Globals) (e : LineEnv) : Prop :=
  e.tclean0_ok = true ∧ e.make_mask_ok = true ∧ e.imstat_ok = true ∧
  e.tclean1_ok = true ∧ e.export_image_ok = true ∧ e.export_mask_ok = true ∧
  ∃ t, thresholdFromStats g.RMS_MULTIPLIER e.stats = .ok t

-- ==========================================================================
--  Helper lemmas
-- ==========================================================================

theorem ratMul_eq_mul (a b : ℚ) : ratMul a b = a * b :=
  (Rat.mul_eq_mkRat a b).symm

theorem reprTenths_round_examples :
    reprTenths (pyRound1 6) = "6.0" ∧ reprTenths (pyRound1 (mkRat 1234 100)) = "12.3" ∧
    reprTenths (pyRound1 (mkRat 15 100)) = "0.2" ∧
    reprTenths (pyRound1 (mkRat 25 100)) = "0.2" := by decide

theorem mainLoop_eq (env : Nat → LineEnv) (g : Globals) :
    ∀ (lst : List (DatasetCfg × LineCfg)) (i : Nat),
      mainLoop env g i lst = (.ok (List.range' i lst.length), g) := by
  intro lst
  induction lst with
  | nil => intro i; rfl
  | cons p rest ih =>
    intro i
    obtain ⟨d, l⟩ := p
    rcases h : (cleanLineRun g main_base_path main_output_path d l (env i)).error with _ | e <;>
      simp [mainLoop, h, ih (i + 1), List.range'] <;> rfl

theorem firstVis_cleanLineRun (g : Globals) (b o : String) (d : DatasetCfg) (l : LineCfg)
    (env : LineEnv) :
    firstVis (cleanLineRun g b o d l env) = some (vis_fileOf b d l) := by
  simp only [cleanLineRun]
  repeat' split
  all_goals rfl

theorem ratMul_two_thousand (r : ℚ) : ratMul (ratMul 1000 2) r = ratMul 2000 r := by
  rw [ratMul_eq_mul, ratMul_eq_mul, ratMul_eq_mul]
  norm_num

-- ==========================================================================
--  Claims
-- ==========================================================================

/-- C3: whatever outcomes the environment assigns to the lines — in
particular when processing of any line raises — the batch driver invokes
`clean_line` at every position `0, 1, ..., n-1` of the flattened catalog in
order, and returns normally (`Except.ok`) rather than propagating an
exception from a line's processing.  So a failure at position `N` never
prevents position `N+1` from being attempted. -/
theorem main_attempts_every_line (g : Globals) (env : Nat → LineEnv) :
    (mainRun g env).1 = Except.ok (List.range (allLines g).length) := by
  unfold mainRun
  rw [mainLoop_eq, List.range_eq_range']

/-- Witness for C3: under the script's own catalog of nine lines, with every
line's guard raising an `IndexError`, all nine positions are attempted and
`main` returns normally. -/
theorem main_attempts_every_line_witness :
    (mainRun defaultGlobals (fun _ => emptyRmsEnv)).1 =
      Except.ok [0, 1, 2, 3, 4, 5, 6, 7, 8] :=
  main_attempts_every_line defaultGlobals (fun _ => emptyRmsEnv)

/-- C9: the shared configuration structures (`MASK_PARAMS`,
`TCLEAN_COMMON_PARAMS`, `DATASETS`, and the RMS constants, bundled in
`Globals`) are only read by `clean_line` and the batch driver: after
processing any sequence of lines under any environment, the globals equal
their initial value. -/
theorem config_unchanged_by_batch (g : Globals) (env : Nat → LineEnv) :
    (mainRun g env).2 = g := by
  unfold mainRun
  rw [mainLoop_eq]

/-- Witness for C9: after a full batch over the script's own catalog the
globals equal `defaultGlobals`. -/
theorem config_unchanged_by_batch_witness :
    (mainRun defaultGlobals (fun _ => allOkEnv)).2 = defaultGlobals :=
  config_unchanged_by_batch defaultGlobals (fun _ => allOkEnv)

/-- C4: for every dataset whose name differs from `2015_SG1`, the first
tclean call of `clean_line` reads its visibility data from the directory
`contsub_<name with underscores removed>` under the base path; for the
irregular name `2015_SG1` it reads from `contsub_2015`. -/
theorem vis_dir_resolution (g : Globals) (b o : String) (d : DatasetCfg) (l : LineCfg)
    (env : LineEnv) :
    (d.name ≠ "2015_SG1" →
      firstVis (cleanLineRun g b o d l env) =
        some (pathJoin (pathJoin b ("contsub_" ++ removeUnderscores d.name))
          (fillSpw d.vis_template l.spw))) ∧
    (d.name = "2015_SG1" →
      firstVis (cleanLineRun g b o d l env) =
        some (pathJoin (pathJoin b "contsub_2015") (fillSpw d.vis_template l.spw))) := by
  constructor <;> intro h <;> rw [firstVis_cleanLineRun] <;>
    simp [vis_fileOf, contsub_dirOf, h]

/-- Witness for C4: the regular dataset `2013_SG2` resolves to
`contsub_2013SG2`, and the irregular dataset `2015_SG1` resolves to
`contsub_2015`. -/
theorem vis_dir_resolution_witness :
    (dataset2013SG2.name ≠ "2015_SG1" ∧
      firstVis (cleanLineRun defaultGlobals "/base" "/out" dataset2013SG2 lineN2H allOkEnv) =
        some "/base/contsub_2013SG2/AA_Tau_2013_SG2.spw0.selfcal.ms.contsub_fit1") ∧
    (dataset2015SG1.name = "2015_SG1" ∧
      firstVis (cleanLineRun defaultGlobals "/base" "/out" dataset2015SG1 lineHCN allOkEnv) =
        some "/base/contsub_2015/AA_Tau_2015_SG1.spw0.selfcal.ms.contsub_fit1") :=
  ⟨⟨by decide,
    (vis_dir_resolution defaultGlobals "/base" "/out" dataset2013SG2 lineN2H allOkEnv).1
      (by decide)⟩,
   ⟨by decide,
    (vis_dir_resolution defaultGlobals "/base" "/out" dataset2015SG1 lineHCN allOkEnv).2
      (by decide)⟩⟩

/-- C5: with a simulated RMS of `0.003` flux units reported by `imstat`, the
threshold string handed to the final clean pass is exactly `6.0mJy`. -/
theorem rms_0003_gives_6mJy :
    finalThreshold (cleanLineRun defaultGlobals main_base_path main_output_path
      dataset2013SG2 lineN2H allOkEnv) = some "6.0mJy" := by decide

/-- C10: when the `imstat` result is truthy and has an `rms` key whose value
is an empty array, `clean_line` does not fall back to `10mJy`: the guard
raises an out-of-range indexing error, the line's processing aborts, and no
second tclean call is made. -/
theorem empty_rms_array_aborts :
    (cleanLineRun defaultGlobals main_base_path main_output_path
        dataset2013SG2 lineN2H emptyRmsEnv).error =
      some "IndexError: index 0 is out of bounds" ∧
    finalThreshold (cleanLineRun defaultGlobals main_base_path main_output_path
        dataset2013SG2 lineN2H emptyRmsEnv) = none ∧
    (tcleanCallsOf (cleanLineRun defaultGlobals main_base_path main_output_path
        dataset2013SG2 lineN2H emptyRmsEnv)).length = 1 := by decide

/-- C2: whenever the pass-0 statistics dictionary is truthy and carries an
`rms` array with first element `r`, the threshold handed to the final clean
pass is `round(2000 × r, 1)` mJy when `r > 0`, and exactly `10mJy`
otherwise — in particular `r = 0` takes the `10mJy` fallback. -/
theorem threshold_rule (b o : String) (d : DatasetCfg) (l : LineCfg) (env : LineEnv)
    (r : ℚ) (rest : List ℚ)
    (h0 : env.tclean0_ok = true) (hm : env.make_mask_ok = true) (hi : env.imstat_ok = true)
    (hne : env.stats.entries.isEmpty = false)
    (hs : statsLookup env.stats "rms" = some (r :: rest)) :
    finalThreshold (cleanLineRun defaultGlobals b o d l env) =
      some (if 0 < r then reprTenths (pyRound1 (ratMul 2000 r)) ++ "mJy" else "10mJy") ∧
    (cleanLineRun defaultGlobals b o d l env).calls.get? 2 =
      some (.imstatC { imagename := clean0_imageOf o l.molecule, chans := "0~30" }) := by
  have hmul := ratMul_two_thousand r
  by_cases hr : 0 < r <;>
    cases h1 : env.tclean1_ok <;> cases h2 : env.export_image_ok <;>
      cases h3 : env.export_mask_ok <;>
        simp [cleanLineRun, thresholdFromStats, finalThreshold, tcleanCallsOf,
          h0, hm, hi, hne, hs, hr, h1, h2, h3, hmul, defaultGlobals]

/-- Witness for C2: RMS `0.003` yields `6.0mJy`; RMS exactly `0` takes the
`10mJy` fallback. -/
theorem threshold_rule_witness :
    (allOkEnv.tclean0_ok = true ∧ allOkEnv.stats.entries.isEmpty = false ∧
      statsLookup allOkEnv.stats "rms" = some [mkRat 3 1000] ∧
      statsLookup zeroRmsEnv.stats "rms" = some [0]) ∧
    finalThreshold (cleanLineRun defaultGlobals "/base" "/out" dataset2013SG2 lineN2H allOkEnv) =
      some "6.0mJy" ∧
    finalThreshold (cleanLineRun defaultGlobals "/base" "/out" dataset2013SG2 lineN2H zeroRmsEnv) =
      some "10mJy" :=
  ⟨⟨by decide, by decide, by decide, by decide⟩,
   (threshold_rule "/base" "/out" dataset2013SG2 lineN2H allOkEnv (mkRat 3 1000) []
     (by decide) (by decide) (by decide) (by decide) (by decide)).1,
   (threshold_rule "/base" "/out" dataset2013SG2 lineN2H zeroRmsEnv 0 []
     (by decide) (by decide) (by decide) (by decide) (by decide)).1⟩

/-- C6: `clean_line` hands the masking routine the line's full
rest-frequency list with every element multiplied by `1e9` (GHz to Hz),
preserving order and length elementwise. -/
theorem mask_receives_hz_list (g : Globals) (b o : String) (d : DatasetCfg) (l : LineCfg)
    (env : LineEnv) (h0 : env.tclean0_ok = true) :
    secondCall (cleanLineRun g b o d l env) =
      some (.makeMaskC
        { image := clean0_imageOf o l.molecule
          restfreqs := l.restfreqs.map (fun freq => ratMul freq 1000000000)
          params := g.MASK_PARAMS }) ∧
    (l.restfreqs.map (fun freq => ratMul freq 1000000000)).length = l.restfreqs.length ∧
    ∀ i : Nat, (l.restfreqs.map (fun freq => ratMul freq 1000000000)).get? i =
      (l.restfreqs.get? i).map (fun freq => ratMul freq 1000000000) := by
  refine ⟨?_, by simp, fun i => by simp⟩
  cases hm : env.make_mask_ok <;> cases hi : env.imstat_ok <;>
    cases h1 : env.tclean1_ok <;> cases h2 : env.export_image_ok <;>
      cases h3 : env.export_mask_ok <;>
        rcases ht : thresholdFromStats g.RMS_MULTIPLIER env.stats with e | t <;>
          simp [cleanLineRun, secondCall, h0, hm, hi, h1, h2, h3, ht]

/-- Witness for C6: the six-frequency blended HCN line is forwarded in full,
converted to Hz. -/
theorem mask_receives_hz_list_witness :
    allOkEnv.tclean0_ok = true ∧
    secondCall (cleanLineRun defaultGlobals "/base" "/out" dataset2013SG1 lineHCN allOkEnv) =
      some (.makeMaskC
        { image := clean0_imageOf "/out" "HCN"
          restfreqs := lineHCN.restfreqs.map (fun freq => ratMul freq 1000000000)
          params := defaultGlobals.MASK_PARAMS }) :=
  ⟨rfl,
   (mask_receives_hz_list defaultGlobals "/base" "/out" dataset2013SG1 lineHCN allOkEnv rfl).1⟩

/-- C7: whenever the external calls of a line succeed and the threshold
guard evaluates to a string `t`, `clean_line` makes exactly two tclean
calls, in order: a dirty pass with `niter = 0`, the fixed absolute threshold
`5mJy` and no mask, then a final pass with the generated mask image, the
computed-or-fallback threshold `t` and the fixed cap `niter = 50000`; both
share `TCLEAN_COMMON_PARAMS`, the dataset's channel width, and the line's
rest frequency. -/
theorem two_tclean_calls (b o : String) (d : DatasetCfg) (l : LineCfg) (env : LineEnv)
    (t : String)
    (h0 : env.tclean0_ok = true) (hm : env.make_mask_ok = true) (hi : env.imstat_ok = true)
    (ht : thresholdFromStats defaultGlobals.RMS_MULTIPLIER env.stats = .ok t) :
    tcleanCallsOf (cleanLineRun defaultGlobals b o d l env) =
      [ { vis := vis_fileOf b d l, imagename := clean0_imagenameOf o l.molecule
          width := d.width, restfreq := l.line_freq, threshold := "5mJy", niter := 0
          mask := none, common := defaultGlobals.TCLEAN_COMMON_PARAMS },
        { vis := vis_fileOf b d l, imagename := clean1_imagenameOf o l.molecule
          width := d.width, restfreq := l.line_freq, threshold := t, niter := 50000
          mask := some (mask_imageOf o l.molecule)
          common := defaultGlobals.TCLEAN_COMMON_PARAMS } ] := by
  have ht' : thresholdFromStats 2 env.stats = Except.ok t := ht
  cases h1 : env.tclean1_ok <;> cases h2 : env.export_image_ok <;>
    cases h3 : env.export_mask_ok <;>
      simp [cleanLineRun, tcleanCallsOf, h0, hm, hi, ht', h1, h2, h3, defaultGlobals]

/-- Witness for C7: a fully successful run of line N2H+ makes its two tclean
calls with threshold `6.0mJy` on the second. -/
theorem two_tclean_calls_witness :
    (allOkEnv.tclean0_ok = true ∧
      thresholdFromStats defaultGlobals.RMS_MULTIPLIER allOkEnv.stats = .ok "6.0mJy") ∧
    tcleanCallsOf (cleanLineRun defaultGlobals "/base" "/out" dataset2013SG2 lineN2H allOkEnv) =
      [ { vis := vis_fileOf "/base" dataset2013SG2 lineN2H
          imagename := clean0_imagenameOf "/out" "N2H+"
          width := "0.3km/s", restfreq := lineN2H.line_freq, threshold := "5mJy", niter := 0
          mask := none, common := defaultGlobals.TCLEAN_COMMON_PARAMS },
        { vis := vis_fileOf "/base" dataset2013SG2 lineN2H
          imagename := clean1_imagenameOf "/out" "N2H+"
          width := "0.3km/s", restfreq := lineN2H.line_freq, threshold := "6.0mJy"
          niter := 50000, mask := some (mask_imageOf "/out" "N2H+")
          common := defaultGlobals.TCLEAN_COMMON_PARAMS } ] :=
  ⟨⟨rfl, rfl⟩,
   two_tclean_calls "/base" "/out" dataset2013SG2 lineN2H allOkEnv "6.0mJy"
     rfl rfl rfl rfl⟩

/-- C1 counterexample: for dataset `2013_SG2`, line `N2H+`, the FITS paths a
successful run exports are not the claimed
`AATau_N2H+_contsub_clean1.image.fits` / `AATau_N2H+_contsub_clean0.mask.image.fits`
(the script drops the `.image` infix when it builds the FITS names). -/
theorem fits_names_cex :
    exportTargets (cleanLineRun defaultGlobals main_base_path main_output_path
        dataset2013SG2 lineN2H allOkEnv) ≠
      [ "/Users/jea/AATau/aatau-alma-analysis/fits_products/AATau_N2H+_contsub_clean1.image.fits",
        "/Users/jea/AATau/aatau-alma-analysis/fits_products/AATau_N2H+_contsub_clean0.mask.image.fits" ] ∧
    "/Users/jea/AATau/aatau-alma-analysis/fits_products/AATau_N2H+_contsub_clean1.image.fits" ∉
      exportTargets (cleanLineRun defaultGlobals main_base_path main_output_path
        dataset2013SG2 lineN2H allOkEnv) := by decide

/-- C1 (amended): for dataset `2013_SG2`, line `N2H+`, the FITS export
filenames are exactly `AATau_N2H+_contsub_clean1.fits` and
`AATau_N2H+_contsub_clean0.mask.fits` inside the `fits_products` directory
(exported from the `.image` products). -/
theorem fits_names_amended :
    exportTargets (cleanLineRun defaultGlobals main_base_path main_output_path
        dataset2013SG2 lineN2H allOkEnv) =
      [ "/Users/jea/AATau/aatau-alma-analysis/fits_products/AATau_N2H+_contsub_clean1.fits",
        "/Users/jea/AATau/aatau-alma-analysis/fits_products/AATau_N2H+_contsub_clean0.mask.fits" ] ∧
    exportSources (cleanLineRun defaultGlobals main_base_path main_output_path
        dataset2013SG2 lineN2H allOkEnv) =
      [ "/Users/jea/AATau/aatau-alma-analysis/casa_images/AATau_N2H+_contsub_clean1.image",
        "/Users/jea/AATau/aatau-alma-analysis/casa_images/AATau_N2H+_contsub_clean0.mask.image" ] := by
  decide

/-- C8 counterexample: two runs with the same molecule (`N2H+`) and the same
output directory (`/out`) but different base paths export to different FITS
paths, so output naming is not a pure function of (molecule, output
directory) alone. -/
theorem naming_not_function_of_mol_out_cex :
    exportTargets (cleanLineRun defaultGlobals "/baseA" "/out" dataset2013SG2 lineN2H allOkEnv) ≠
      exportTargets (cleanLineRun defaultGlobals "/baseB" "/out" dataset2013SG2 lineN2H allOkEnv) := by
  decide

/-- C8 (amended): output naming is a pure function of (molecule name, output
directory, base path): two successful runs agreeing on those three — whatever
their dataset entry, spectral window, statistics or environment — produce
identical FITS targets, identical export sources, identical tclean image
names, and export with `overwrite=True`, so a re-run overwrites the prior
run's outputs. -/
theorem naming_function_of_mol_out_base (b o : String) (d d' : DatasetCfg) (l l' : LineCfg)
    (env env' : LineEnv) (hmol : l.molecule = l'.molecule)
    (he : envAllOk defaultGlobals env) (he' : envAllOk defaultGlobals env') :
    exportTargets (cleanLineRun defaultGlobals b o d l env) =
      exportTargets (cleanLineRun defaultGlobals b o d' l' env') ∧
    exportSources (cleanLineRun defaultGlobals b o d l env) =
      exportSources (cleanLineRun defaultGlobals b o d' l' env') ∧
    (tcleanCallsOf (cleanLineRun defaultGlobals b o d l env)).map TcleanCall.imagename =
      (tcleanCallsOf (cleanLineRun defaultGlobals b o d' l' env')).map TcleanCall.imagename ∧
    exportOverwrites (cleanLineRun defaultGlobals b o d l env) = [true, true] := by
  obtain ⟨e1, e2, e3, e4, e5, e6, t, ht⟩ := he
  obtain ⟨f1, f2, f3, f4, f5, f6, t', ht'⟩ := he'
  simp [cleanLineRun, exportTargets, exportSources, exportOverwrites, tcleanCallsOf,
    e1, e2, e3, e4, e5, e6, f1, f2, f3, f4, f5, f6, ht, ht', hmol]

/-- Witness for C8 (amended): the same molecule and directories under two
different dataset entries give identical FITS targets. -/
theorem naming_function_witness :
    (lineN2H.molecule = lineN2H.molecule ∧ envAllOk defaultGlobals allOkEnv) ∧
    exportTargets (cleanLineRun defaultGlobals "/base" "/out" dataset2013SG2 lineN2H allOkEnv) =
      exportTargets (cleanLineRun defaultGlobals "/base" "/out" dataset2015SG1 lineN2H allOkEnv) :=
  ⟨⟨rfl, rfl, rfl, rfl, rfl, rfl, rfl, "6.0mJy", rfl⟩,
   (naming_function_of_mol_out_base "/base" "/out" dataset2013SG2 dataset2015SG1
      lineN2H lineN2H allOkEnv allOkEnv rfl
      ⟨rfl, rfl, rfl, rfl, rfl, rfl, "6.0mJy", rfl⟩
      ⟨rfl, rfl, rfl, rfl, rfl, rfl, "6.0mJy", rfl⟩).1⟩

end CleanAllLines
